import Mathlib

/-!
Shallow embedding of `whatsapp_bulk_automation.py` (single-file repository).

The embedding models the pure control flow and accounting of the program:
the cleaning of the recipient dataset, the per-record delivery loop of
`WhatsAppAutomation.send_bulk_messages`, the two-strategy contact search of
`search_contact`, the session statistics updated by `send_message`, the
file-extension dispatch of the bulk path and of `validate_contacts_file`,
and the template formatting of `generate_personalized_message`.

The browser channel (Selenium) is abstracted as an oracle (`Channel`)
giving, per record, the outcome of each element interaction; explicit
`time.sleep` calls are the only modelled durations (element waits that
succeed are modelled as instantaneous), and `random.uniform` draws are
modelled by an oracle-provided pick within the configured range.
-/

/-- Python `str.strip()` on the relevant whitespace set: drop leading and
trailing whitespace characters. -/
def strip (s : String) : String :=
  ⟨((s.toList.dropWhile Char.isWhitespace).reverse.dropWhile Char.isWhitespace).reverse⟩

/-- Python `str.lower()` restricted to ASCII, as used by the `'nan'` checks. -/
def lower (s : String) : String :=
  ⟨s.toList.map Char.toLower⟩

namespace Config

/-- Source line 109: `'max_messages_per_minute': 10`. -/
def max_messages_per_minute : Nat := 10

/-- Source line 110: `'max_messages_per_hour': 50`. -/
def max_messages_per_hour : Nat := 50

/-- Source line 111: `'max_messages_per_day': 200`. -/
def max_messages_per_day : Nat := 200

/-- Source line 112: `'cooldown_period_minutes': 5`. -/
def cooldown_period_minutes : Nat := 5

/-- Source line 99: `'search_delay': 2`. -/
def search_delay : Nat := 2

/-- Source line 100: `'message_send_delay': 1`. -/
def message_send_delay : Nat := 1

/-- Source line 101: `'between_messages_min': 3`. -/
def between_messages_min : Nat := 3

/-- Source line 102: `'between_messages_max': 8`. -/
def between_messages_max : Nat := 8

end Config

/-- Outcome of the channel interactions performed by `search_contact` for one
record: whether an exact-title element became clickable within the wait
(line 441), whether a first search result became clickable (line 455), and
whether the message box appeared after clicking the first result (line 467). -/
structure SearchEnv where
  exactMatch : Bool
  firstResult : Bool
  chatOpened : Bool
  deriving DecidableEq

/-- Embedding of `WhatsAppAutomation.search_contact` (lines 405-484): try the
exact title match first (return `true` on success); on timeout fall back to the
first search result and succeed only if the message box then appears; if the
first result never becomes clickable, return `false`. -/
def search_contact (env : SearchEnv) : Bool :=
  if env.exactMatch then true
  else if env.firstResult then env.chatOpened
  else false

/-- Strategy steps attempted by `search_contact`, for stating the order of the
two-strategy fallback. -/
inductive SearchStep where
  | exactAttempt
  | bestEffortAttempt
  | verifyAttempt
  deriving DecidableEq

/-- Trace of attempts made by `search_contact`: the exact-title strategy is
always attempted first (line 441); the first-result strategy is attempted
exactly when the exact match timed out (line 453); chat verification is
attempted exactly when a first result was clicked (line 466). -/
def search_steps (env : SearchEnv) : List SearchStep :=
  SearchStep.exactAttempt ::
    (if env.exactMatch then []
     else SearchStep.bestEffortAttempt ::
       (if env.firstResult then [SearchStep.verifyAttempt] else []))

/-- Seconds of explicit `time.sleep` inside `search_contact`: line 437 sleeps
`search_delay` (2s) always; line 465 sleeps 1s after clicking the first
result (best-effort path only). -/
def searchDuration (env : SearchEnv) : Nat :=
  Config.search_delay + (if env.exactMatch then 0 else if env.firstResult then 1 else 0)

/-- Outcome raised by the channel during `send_message` (lines 500-544):
success, `ElementClickInterceptedException` (caught line 535),
`TimeoutException` (caught line 538), or any other exception (caught
line 541). -/
inductive SendOutcome where
  | ok
  | intercepted
  | timedOut
  | otherError
  deriving DecidableEq

/-- Session-level counters of `self.session_stats` (lines 164-169). -/
structure SessionStats where
  messages_sent : Nat
  messages_failed : Nat
  contacts_processed : Nat
  deriving DecidableEq

/-- Embedding of `WhatsAppAutomation.send_message` (lines 486-544): on success
increments `messages_sent` (line 531) and returns `True`; on
`ElementClickInterceptedException` or `TimeoutException` returns `False`
without touching any counter (lines 535-540); on any other exception
increments `messages_failed` (line 543) and returns `False`. -/
def send_message (st : SessionStats) : SendOutcome → Bool × SessionStats
  | SendOutcome.ok =>
      (true, { st with messages_sent := st.messages_sent + 1 })
  | SendOutcome.intercepted => (false, st)
  | SendOutcome.timedOut => (false, st)
  | SendOutcome.otherError =>
      (false, { st with messages_failed := st.messages_failed + 1 })

/-- Seconds of explicit `time.sleep` in `send_message`: the success path sleeps
`message_send_delay` before and after pressing Enter (lines 520, 526); the
exception paths raise before the sleeps. -/
def sendDuration : SendOutcome → Nat
  | SendOutcome.ok => 2 * Config.message_send_delay
  | _ => 0

/-- Embedding of `get_session_statistics` (lines 912-930) restricted to the
discretely-modelled fields: it reports the session counters verbatim. -/
def get_session_statistics (st : SessionStats) : Nat × Nat × Nat :=
  (st.messages_sent, st.messages_failed, st.contacts_processed)

/-- Results dictionary initialized at lines 574-583 of `send_bulk_messages`
(the `processing_time` float is not modelled). -/
structure Results where
  total : Nat
  successful : Nat
  failed : Nat
  skipped : Nat
  failed_contacts : List String
  skipped_contacts : List String
  deriving DecidableEq

/-- Observable events of one bulk run, each stamped with the modelled clock
(seconds of explicit `time.sleep` elapsed so far): a contact search issued for
a record (entry into `search_contact`), an invocation of `send_message` for a
record, and the randomized inter-record delay of lines 693-698 with its
configured range and the drawn value. -/
inductive Event where
  | searched (t : Nat) (label : Nat) (contact : String)
  | dispatched (t : Nat) (label : Nat) (contact message : String)
  | delayed (t : Nat) (lo hi d : Nat)
  deriving DecidableEq

/-- State threaded through the per-record loop of `send_bulk_messages`:
the results dictionary, the session statistics, the modelled clock, and the
trace of events so far. -/
structure LoopState where
  results : Results
  sess : SessionStats
  clock : Nat
  events : List Event
  deriving DecidableEq

/-- Oracle for the channel (Selenium) behaviour and for the `random.uniform`
draws, keyed by the pandas row label of the record being processed. -/
structure Channel where
  search : Nat → SearchEnv
  send : Nat → SendOutcome
  delayPick : Nat → Nat

/-- The skip condition of line 660: empty contact, empty message, or a
field whose lowercase form is the string `nan`. -/
def rowInvalid (contact message : String) : Bool :=
  contact == "" || message == "" || lower contact == "nan" || lower message == "nan"

/-- Embedding of the cleaning step of lines 621-624: `dropna` removes the rows
with a missing value in either required column but keeps the original pandas
row labels, and both columns are whitespace-stripped. A raw row is a pair of
optional cell values (`none` models NaN); the cleaned frame is the list of
(label, contact, message) rows. -/
def cleanRows (raw : List (Option String × Option String)) : List (Nat × String × String) :=
  raw.enum.filterMap fun p =>
    match p.2.1, p.2.2 with
    | some c, some m => some (p.1, strip c, strip m)
    | _, _ => none

/-- One iteration of the loop at lines 655-698 of `send_bulk_messages`, where
`n` is `len(df)` (fixed at line 626) and `delayRange` the `delay_range`
argument. Rows failing the line-660 check are counted skipped and `continue`
(no delay). Otherwise `contacts_processed` is incremented (line 672),
`search_contact` is consulted; on failure the record is counted failed
(lines 684-687); on success `send_message` runs and the record is counted
successful or failed by its boolean result (lines 675-683). Finally, the
randomized delay runs iff the pandas label is `< n - 1` (line 694). -/
def processRecord (ch : Channel) (n : Nat) (delayRange : Nat × Nat)
    (st : LoopState) (rec : Nat × String × String) : LoopState :=
  let l := rec.1
  let contact := strip rec.2.1
  let message := strip rec.2.2
  if rowInvalid contact message then
    { st with results := { st.results with
        skipped := st.results.skipped + 1,
        skipped_contacts := st.results.skipped_contacts ++ ["Row " ++ toString (l + 1)] } }
  else
    let sess1 := { st.sess with contacts_processed := st.sess.contacts_processed + 1 }
    let env := ch.search l
    let found := search_contact env
    let evs1 := st.events ++ [Event.searched st.clock l contact]
    let t1 := st.clock + searchDuration env
    let st1 :=
      if found then
        let o := ch.send l
        let res := send_message sess1 o
        let evs2 := evs1 ++ [Event.dispatched t1 l contact message]
        let t2 := t1 + sendDuration o
        if res.1 then
          { results := { st.results with successful := st.results.successful + 1 },
            sess := res.2, clock := t2, events := evs2 }
        else
          { results :=
              { st.results with
                failed := st.results.failed + 1
                failed_contacts := st.results.failed_contacts ++ [contact] },
            sess := res.2, clock := t2, events := evs2 }
      else
        { results :=
            { st.results with
              failed := st.results.failed + 1
              failed_contacts := st.results.failed_contacts ++ [contact] },
          sess := sess1, clock := t1, events := evs1 }
    if l < n - 1 then
      { st1 with
        clock := st1.clock + ch.delayPick l
        events := st1.events ++
          [Event.delayed st1.clock delayRange.1 delayRange.2 (ch.delayPick l)] }
    else st1

/-- Initial loop state for a run: the results dictionary of lines 574-583 with
`total` already set to `len(df)` (line 626), the caller's session statistics,
clock zero and empty trace. -/
def initState (sess0 : SessionStats) (n : Nat) : LoopState :=
  { results :=
      { total := n, successful := 0, failed := 0, skipped := 0,
        failed_contacts := [], skipped_contacts := [] },
    sess := sess0, clock := 0, events := [] }

/-- Embedding of `send_bulk_messages` (lines 546-723) from the cleaned-data
stage on, for a run that passes the confirmation prompt: clean the raw rows,
fix `total := len(df)` (line 626), return early when the frame is empty
(line 628) or in dry-run mode (line 634), otherwise run the per-record loop. -/
def send_bulk_messages (ch : Channel) (sess0 : SessionStats)
    (raw : List (Option String × Option String)) (delayRange : Nat × Nat)
    (dry_run : Bool) : LoopState :=
  let df := cleanRows raw
  let st0 := initState sess0 df.length
  if df.length = 0 then st0
  else if dry_run then st0
  else df.foldl (processRecord ch df.length delayRange) st0

/-- The loop state observed at the iteration boundary after the first `k`
records of a (non-dry) run have been processed. -/
def stateAfter (ch : Channel) (sess0 : SessionStats)
    (raw : List (Option String × Option String)) (delayRange : Nat × Nat)
    (k : Nat) : LoopState :=
  let df := cleanRows raw
  (df.take k).foldl (processRecord ch df.length delayRange) (initState sess0 df.length)

/-- Labels of the records for which a contact search was issued, in order. -/
def searchedLabels (evs : List Event) : List Nat :=
  evs.filterMap fun e =>
    match e with
    | Event.searched _ l _ => some l
    | _ => none

/-- Labels of the records for which `send_message` was invoked, in order. -/
def dispatchedLabels (evs : List Event) : List Nat :=
  evs.filterMap fun e =>
    match e with
    | Event.dispatched _ l _ _ => some l
    | _ => none

/-- Clock stamps of the `send_message` invocations, in order. -/
def dispatchTimes (evs : List Event) : List Nat :=
  evs.filterMap fun e =>
    match e with
    | Event.dispatched t _ _ _ => some t
    | _ => none

/-- Contact/message pairs for which `send_message` was invoked, in order. -/
def dispatchedPairs (evs : List Event) : List (String × String) :=
  evs.filterMap fun e =>
    match e with
    | Event.dispatched _ _ c m => some (c, m)
    | _ => none

/-- Number of inter-record delay events in a trace. -/
def delayCount (evs : List Event) : Nat :=
  (evs.filterMap fun e =>
    match e with
    | Event.delayed t _ _ _ => some t
    | _ => none).length

/-- A cleaned record that passes the line-660 validity check. -/
def isValidRec (r : Nat × String × String) : Bool :=
  !(rowInvalid (strip r.2.1) (strip r.2.2))

/-- The boolean value returned by `send_message`, which is independent of the
incoming session statistics: `True` exactly on the success path. -/
def sendReturnsTrue (o : SendOutcome) : Bool :=
  (send_message ⟨0, 0, 0⟩ o).1

/-- A valid record classified failed by the loop: contact search fails, or the
search succeeds and `send_message` returns `False`. -/
def recFails (ch : Channel) (r : Nat × String × String) : Bool :=
  isValidRec r &&
    (!(search_contact (ch.search r.1)) ||
      (search_contact (ch.search r.1) && !(sendReturnsTrue (ch.send r.1))))

/-- A valid record classified successful by the loop: search succeeds and
`send_message` returns `True`. -/
def recSucceeds (ch : Channel) (r : Nat × String × String) : Bool :=
  isValidRec r && search_contact (ch.search r.1) && sendReturnsTrue (ch.send r.1)

/-- Action taken by a reading path on a given filename: parse as CSV, parse as
Excel, or raise the unsupported-format `ValueError` of line 608. -/
inductive ReadAction where
  | readCsv
  | readExcel
  | unsupported (ext : String)
  deriving DecidableEq

/-- The basename of a path: the part after the last `/`. -/
def basenameOf (path : String) : String :=
  ⟨(path.toList.reverse.takeWhile (fun c => c ≠ '/')).reverse⟩

/-- The extension in the sense of `os.path.splitext(path)[1]`: the suffix of
the basename starting at its last dot, where a run of leading dots of the
basename does not begin an extension. -/
def splitextExt (path : String) : String :=
  let base := (basenameOf path).toList
  let rest := base.drop ((base.takeWhile (fun c => c = '.')).length)
  let tail := rest.reverse.takeWhile (fun c => c ≠ '.')
  if tail.length = rest.length then "" else ⟨'.' :: tail.reverse⟩

/-- The extension dispatch of the bulk path (lines 599-608):
`os.path.splitext(contacts_file)[1].lower()` selects `read_csv` for `.csv`,
`read_excel` for `.xlsx`/`.xls`, and raises the unsupported-format
`ValueError` otherwise. -/
def bulkReadAction (path : String) : ReadAction :=
  let ext := lower (splitextExt path)
  if ext == ".csv" then ReadAction.readCsv
  else if ext == ".xlsx" || ext == ".xls" then ReadAction.readExcel
  else ReadAction.unsupported ext

/-- The extension dispatch of `validate_contacts_file` (lines 871-874):
`read_csv` when the filename ends with `.csv`, otherwise `read_excel`
unconditionally; no unsupported-format branch exists there. -/
def validateReadAction (path : String) : ReadAction :=
  if List.isPrefixOf ".csv".toList.reverse path.toList.reverse then ReadAction.readCsv
  else ReadAction.readExcel

/-- The bulk path including the extension stage: when the extension is
unsupported, the `ValueError` of line 608 is caught at line 712 and the
untouched all-zero results dictionary is returned, so no record loop runs and
no event is emitted; otherwise the run proceeds as `send_bulk_messages`.
The first component carries the reported unsupported extension, if any. -/
def send_bulk_from_file (ch : Channel) (sess0 : SessionStats) (path : String)
    (parsed : List (Option String × Option String)) (delayRange : Nat × Nat)
    (dry_run : Bool) : Option String × LoopState :=
  match bulkReadAction path with
  | ReadAction.unsupported ext => (some ext, initState sess0 0)
  | _ => (none, send_bulk_messages ch sess0 parsed delayRange dry_run)

/-- Token of a parsed format template: a literal character or a replacement
field (its raw contents between the braces). -/
inductive FmtTok where
  | lit (c : Char)
  | field (cs : List Char)
  deriving DecidableEq

/-- Error raised by `str.format`: `KeyError` on a missing keyword, the
`ValueError` raised on malformed braces, or the `IndexError` raised when an
automatic or explicit positional field is used with keyword arguments only. -/
inductive FmtError where
  | missingKey (k : String)
  | malformed
  | indexError
  deriving DecidableEq

/-- Left and right brace characters (written via escapes). -/
def lbrace : Char := '\x7b'

/-- Right brace character. -/
def rbrace : Char := '\x7d'

/-- Tokenizer for `str.format` templates: doubled braces are literal braces, a
single opening brace starts a replacement field read up to the matching
closing brace, a single closing brace outside a field is the `ValueError` of
CPython, and an unterminated field at end of string is likewise an error.
The second argument is `none` outside a field and `some acc` (reversed field
characters) inside one. -/
def fmtTokenize : List Char → Option (List Char) → Except FmtError (List FmtTok)
  | [], none => Except.ok []
  | [], some _ => Except.error FmtError.malformed
  | c :: cs, none =>
    if c = lbrace then
      match cs with
      | [] => Except.error FmtError.malformed
      | d :: ds =>
        if d = lbrace then (fmtTokenize ds none).map (FmtTok.lit lbrace :: ·)
        else fmtTokenize (d :: ds) (some [])
    else if c = rbrace then
      match cs with
      | [] => Except.error FmtError.malformed
      | d :: ds =>
        if d = rbrace then (fmtTokenize ds none).map (FmtTok.lit rbrace :: ·)
        else Except.error FmtError.malformed
    else (fmtTokenize cs none).map (FmtTok.lit c :: ·)
  | c :: cs, some acc =>
    if c = rbrace then (fmtTokenize cs none).map (FmtTok.field acc.reverse :: ·)
    else fmtTokenize cs (some (c :: acc))

/-- The argument key of a replacement field: the field name up to any
conversion, format spec, attribute or index access. -/
def fieldKey (cs : List Char) : String :=
  ⟨cs.takeWhile (fun c => c ≠ ':' && c ≠ '!' && c ≠ '.' && c ≠ '[')⟩

/-- Renders a token list against keyword arguments: a field whose key is empty
or numeric is positional and raises `IndexError` under keyword-only call; a
key absent from the arguments raises `KeyError` carrying that key; otherwise
the argument value is substituted. -/
def fmtRender (kwargs : List (String × String)) : List FmtTok → Except FmtError (List Char)
  | [] => Except.ok []
  | FmtTok.lit c :: ts => (fmtRender kwargs ts).map (c :: ·)
  | FmtTok.field cs :: ts =>
    let key := fieldKey cs
    if key == "" || key.toList.all Char.isDigit then Except.error FmtError.indexError
    else
      match (kwargs.filter (fun p => p.1 == key)).head? with
      | none => Except.error (FmtError.missingKey key)
      | some p => (fmtRender kwargs ts).map (p.2.toList ++ ·)

/-- Embedding of Python `template.format(**kwargs)` for the replacement-field
fragment the program uses: tokenize, then render. -/
def strFormat (template : String) (kwargs : List (String × String)) :
    Except FmtError String :=
  (fmtTokenize template.toList none).bind (fun ts => (fmtRender kwargs ts).map List.asString)

/-- Embedding of `generate_personalized_message` (lines 1089-1107): delegate to
`str.format`; a `KeyError e` is caught and turned into the string
`f"Error: Missing template variable \x7be\x7d"`, where `str` of a `KeyError`
is the repr of the key, i.e. the key in single quotes; any other exception
propagates. -/
def generate_personalized_message (template : String)
    (kwargs : List (String × String)) : Except FmtError String :=
  match strFormat template kwargs with
  | Except.ok s => Except.ok s
  | Except.error (FmtError.missingKey k) =>
      Except.ok ("Error: Missing template variable " ++ "\x27" ++ k ++ "\x27")
  | Except.error e => Except.error e

/-- All-zero session statistics (a fresh `WhatsAppAutomation` instance). -/
def zeroSess : SessionStats := ⟨0, 0, 0⟩

/-- Channel on which every contact search hits an exact match, every dispatch
succeeds, and every `random.uniform(3, 8)` draw comes out as 3. -/
def chAllOk : Channel :=
  ⟨fun _ => ⟨true, true, true⟩, fun _ => SendOutcome.ok, fun _ => 3⟩

/-- Channel on which no contact search finds anything. -/
def chNotFound : Channel :=
  ⟨fun _ => ⟨false, false, false⟩, fun _ => SendOutcome.ok, fun _ => 3⟩

/-- Channel on which every search succeeds and every dispatch raises
`TimeoutException`. -/
def chTimedOut : Channel :=
  ⟨fun _ => ⟨true, true, true⟩, fun _ => SendOutcome.timedOut, fun _ => 3⟩

/-- One valid raw row. -/
def rawOne : List (Option String × Option String) := [(some "A", some "hi")]

/-- The three-row scenario dataset of the spec: one valid row and two rows
with an empty (but present, hence non-NaN) cell. -/
def rawScenario : List (Option String × Option String) :=
  [(some "A", some "hi"), (some "", some "hi"), (some "B", some "")]

/-- Fifty-one identical valid rows. -/
def rawFiftyOne : List (Option String × Option String) :=
  List.replicate 51 (some "A", some "hi")

/-- A dataset whose first row has a missing (NaN) contact cell followed by two
valid rows, so that after `dropna` the surviving pandas labels are 1 and 2
while `len(df)` is 2. -/
def rawDropFirst : List (Option String × Option String) :=
  [(none, some "x"), (some "A", some "m1"), (some "B", some "m2")]

/-- One valid raw row with contact `Z`. -/
def rawZ : List (Option String × Option String) := [(some "Z", some "m")]

theorem send_message_fst (st : SessionStats) (o : SendOutcome) :
    (send_message st o).1 = sendReturnsTrue o := by
  cases o <;> rfl

theorem send_message_processed (st : SessionStats) (o : SendOutcome) :
    (send_message st o).2.contacts_processed = st.contacts_processed := by
  cases o <;> rfl

theorem send_message_sent (st : SessionStats) (o : SendOutcome) :
    (send_message st o).2.messages_sent =
      st.messages_sent + (if sendReturnsTrue o then 1 else 0) := by
  cases o <;> simp [send_message, sendReturnsTrue]

theorem send_message_failed_count (st : SessionStats) (o : SendOutcome) :
    (send_message st o).2.messages_failed =
      st.messages_failed + (if o = SendOutcome.otherError then 1 else 0) := by
  cases o <;> simp [send_message]

theorem processRecord_results (ch : Channel) (n : Nat) (dr : Nat × Nat)
    (st : LoopState) (r : Nat × String × String) :
    (processRecord ch n dr st r).results =
      { total := st.results.total
        successful := st.results.successful + (if recSucceeds ch r then 1 else 0)
        failed := st.results.failed + (if recFails ch r then 1 else 0)
        skipped := st.results.skipped + (if isValidRec r then 0 else 1)
        failed_contacts :=
          st.results.failed_contacts ++ (if recFails ch r then [strip r.2.1] else [])
        skipped_contacts :=
          st.results.skipped_contacts ++
            (if isValidRec r then [] else ["Row " ++ toString (r.1 + 1)]) } := by
  obtain ⟨l, c, m⟩ := r
  simp only [processRecord, recSucceeds, recFails, isValidRec]
  by_cases hv : rowInvalid (strip c) (strip m) = true
  · simp [hv]
  · by_cases hs : search_contact (ch.search l) = true
    · by_cases hb : sendReturnsTrue (ch.send l) = true
      · simp [hv, hs, hb, send_message_fst]
        split <;> rfl
      · simp [hv, hs, hb, send_message_fst]
        split <;> rfl
    · simp [hv, hs]
      split <;> rfl

theorem send_message_snd (st : SessionStats) (o : SendOutcome) :
    (send_message st o).2 =
      { messages_sent := st.messages_sent + (if sendReturnsTrue o then 1 else 0)
        messages_failed :=
          st.messages_failed + (if o == SendOutcome.otherError then 1 else 0)
        contacts_processed := st.contacts_processed } := by
  cases o <;> simp [send_message, sendReturnsTrue]

theorem sendReturnsTrue_not_otherError (o : SendOutcome)
    (h : sendReturnsTrue o = true) : (o == SendOutcome.otherError) = false := by
  cases o <;> simp_all [sendReturnsTrue, send_message]

theorem processRecord_sess (ch : Channel) (n : Nat) (dr : Nat × Nat)
    (st : LoopState) (r : Nat × String × String) :
    (processRecord ch n dr st r).sess =
      { messages_sent := st.sess.messages_sent + (if recSucceeds ch r then 1 else 0)
        messages_failed := st.sess.messages_failed +
          (if isValidRec r && search_contact (ch.search r.1)
              && (ch.send r.1 == SendOutcome.otherError) then 1 else 0)
        contacts_processed :=
          st.sess.contacts_processed + (if isValidRec r then 1 else 0) } := by
  obtain ⟨l, c, m⟩ := r
  simp only [processRecord, recSucceeds, isValidRec]
  by_cases hv : rowInvalid (strip c) (strip m) = true
  · simp [hv]
  · by_cases hs : search_contact (ch.search l) = true
    · by_cases hb : sendReturnsTrue (ch.send l) = true
      · simp [hv, hs, hb, send_message_fst, send_message_snd,
          sendReturnsTrue_not_otherError _ hb]
        split <;> rfl
      · simp [hv, hs, hb, send_message_fst, send_message_snd]
        split <;> rfl
    · simp [hv, hs]
      split <;> rfl

theorem processRecord_events (ch : Channel) (n : Nat) (dr : Nat × Nat)
    (st : LoopState) (r : Nat × String × String) :
    ∃ extra : List Event,
      (processRecord ch n dr st r).events = st.events ++ extra ∧
      searchedLabels extra = (if isValidRec r then [r.1] else []) ∧
      dispatchedLabels extra =
        (if isValidRec r && search_contact (ch.search r.1) then [r.1] else []) := by
  obtain ⟨l, c, m⟩ := r
  simp only [processRecord, isValidRec]
  by_cases hv : rowInvalid (strip c) (strip m) = true
  · refine ⟨[], ?_, ?_, ?_⟩ <;> simp [hv, searchedLabels, dispatchedLabels]
  · by_cases hs : search_contact (ch.search l) = true
    · by_cases hb : sendReturnsTrue (ch.send l) = true
      · by_cases hd : l < n - 1
        · refine ⟨[Event.searched st.clock l (strip c),
            Event.dispatched (st.clock + searchDuration (ch.search l)) l (strip c) (strip m),
            Event.delayed (st.clock + searchDuration (ch.search l) + sendDuration (ch.send l))
              dr.1 dr.2 (ch.delayPick l)], ?_, ?_, ?_⟩ <;>
            simp [hv, hs, hb, hd, send_message_fst, searchedLabels, dispatchedLabels]
        · refine ⟨[Event.searched st.clock l (strip c),
            Event.dispatched (st.clock + searchDuration (ch.search l)) l (strip c) (strip m)],
            ?_, ?_, ?_⟩ <;>
            simp [hv, hs, hb, hd, send_message_fst, searchedLabels, dispatchedLabels]
      · by_cases hd : l < n - 1
        · refine ⟨[Event.searched st.clock l (strip c),
            Event.dispatched (st.clock + searchDuration (ch.search l)) l (strip c) (strip m),
            Event.delayed (st.clock + searchDuration (ch.search l) + sendDuration (ch.send l))
              dr.1 dr.2 (ch.delayPick l)], ?_, ?_, ?_⟩ <;>
            simp [hv, hs, hb, hd, send_message_fst, searchedLabels, dispatchedLabels]
        · refine ⟨[Event.searched st.clock l (strip c),
            Event.dispatched (st.clock + searchDuration (ch.search l)) l (strip c) (strip m)],
            ?_, ?_, ?_⟩ <;>
            simp [hv, hs, hb, hd, send_message_fst, searchedLabels, dispatchedLabels]
    · by_cases hd : l < n - 1
      · refine ⟨[Event.searched st.clock l (strip c),
          Event.delayed (st.clock + searchDuration (ch.search l))
            dr.1 dr.2 (ch.delayPick l)], ?_, ?_, ?_⟩ <;>
          simp [hv, hs, hd, searchedLabels, dispatchedLabels]
      · refine ⟨[Event.searched st.clock l (strip c)], ?_, ?_, ?_⟩ <;>
          simp [hv, hs, hd, searchedLabels, dispatchedLabels]

theorem processRecord_sum (ch : Channel) (n : Nat) (dr : Nat × Nat)
    (st : LoopState) (r : Nat × String × String) :
    (processRecord ch n dr st r).results.successful
        + (processRecord ch n dr st r).results.failed
        + (processRecord ch n dr st r).results.skipped
      = st.results.successful + st.results.failed + st.results.skipped + 1 := by
  rw [processRecord_results]
  by_cases hv : isValidRec r = true
  · by_cases hs : search_contact (ch.search r.1) = true
    · by_cases hb : sendReturnsTrue (ch.send r.1) = true
      · simp [recSucceeds, recFails, hv, hs, hb]
        omega
      · simp [recSucceeds, recFails, hv, hs, hb]
        omega
    · simp [recSucceeds, recFails, hv, hs]
      omega
  · simp [recSucceeds, recFails, hv]
    omega

theorem foldl_sum (ch : Channel) (n : Nat) (dr : Nat × Nat) :
    ∀ (recs : List (Nat × String × String)) (st : LoopState),
      (recs.foldl (processRecord ch n dr) st).results.successful
          + (recs.foldl (processRecord ch n dr) st).results.failed
          + (recs.foldl (processRecord ch n dr) st).results.skipped
        = st.results.successful + st.results.failed + st.results.skipped + recs.length
  | [], st => by simp
  | r :: rs, st => by
    have h := foldl_sum ch n dr rs (processRecord ch n dr st r)
    simp only [List.foldl_cons, List.length_cons]
    rw [h, processRecord_sum]
    omega

theorem foldl_total (ch : Channel) (n : Nat) (dr : Nat × Nat) :
    ∀ (recs : List (Nat × String × String)) (st : LoopState),
      (recs.foldl (processRecord ch n dr) st).results.total = st.results.total
  | [], st => by simp
  | r :: rs, st => by
    have h := foldl_total ch n dr rs (processRecord ch n dr st r)
    simp only [List.foldl_cons]
    rw [h, processRecord_results]

theorem foldl_failed (ch : Channel) (n : Nat) (dr : Nat × Nat) :
    ∀ (recs : List (Nat × String × String)) (st : LoopState),
      (recs.foldl (processRecord ch n dr) st).results.failed =
        st.results.failed + (recs.filter (recFails ch)).length
  | [], st => by simp
  | r :: rs, st => by
    have h := foldl_failed ch n dr rs (processRecord ch n dr st r)
    simp only [List.foldl_cons]
    rw [h, processRecord_results]
    by_cases hf : recFails ch r = true <;> simp [hf, List.filter_cons] <;> omega

theorem foldl_failed_contacts (ch : Channel) (n : Nat) (dr : Nat × Nat) :
    ∀ (recs : List (Nat × String × String)) (st : LoopState),
      (recs.foldl (processRecord ch n dr) st).results.failed_contacts =
        st.results.failed_contacts ++ (recs.filter (recFails ch)).map (fun r => strip r.2.1)
  | [], st => by simp
  | r :: rs, st => by
    have h := foldl_failed_contacts ch n dr rs (processRecord ch n dr st r)
    simp only [List.foldl_cons]
    rw [h, processRecord_results]
    by_cases hf : recFails ch r = true <;> simp [hf, List.filter_cons]

theorem foldl_skipped (ch : Channel) (n : Nat) (dr : Nat × Nat) :
    ∀ (recs : List (Nat × String × String)) (st : LoopState),
      (recs.foldl (processRecord ch n dr) st).results.skipped =
        st.results.skipped + (recs.filter (fun r => !(isValidRec r))).length
  | [], st => by simp
  | r :: rs, st => by
    have h := foldl_skipped ch n dr rs (processRecord ch n dr st r)
    simp only [List.foldl_cons]
    rw [h, processRecord_results]
    by_cases hv : isValidRec r = true <;> simp [hv, List.filter_cons] <;> omega

theorem foldl_successful (ch : Channel) (n : Nat) (dr : Nat × Nat) :
    ∀ (recs : List (Nat × String × String)) (st : LoopState),
      (recs.foldl (processRecord ch n dr) st).results.successful =
        st.results.successful + (recs.filter (recSucceeds ch)).length
  | [], st => by simp
  | r :: rs, st => by
    have h := foldl_successful ch n dr rs (processRecord ch n dr st r)
    simp only [List.foldl_cons]
    rw [h, processRecord_results]
    by_cases hs : recSucceeds ch r = true <;> simp [hs, List.filter_cons] <;> omega

theorem foldl_contacts_processed (ch : Channel) (n : Nat) (dr : Nat × Nat) :
    ∀ (recs : List (Nat × String × String)) (st : LoopState),
      (recs.foldl (processRecord ch n dr) st).sess.contacts_processed =
        st.sess.contacts_processed + (recs.filter (isValidRec)).length
  | [], st => by simp
  | r :: rs, st => by
    have h := foldl_contacts_processed ch n dr rs (processRecord ch n dr st r)
    simp only [List.foldl_cons]
    rw [h, processRecord_sess]
    simp only [List.filter_cons]
    cases hv : isValidRec r <;> simp [hv] <;> omega

theorem foldl_messages_sent (ch : Channel) (n : Nat) (dr : Nat × Nat) :
    ∀ (recs : List (Nat × String × String)) (st : LoopState),
      (recs.foldl (processRecord ch n dr) st).sess.messages_sent =
        st.sess.messages_sent + (recs.filter (recSucceeds ch)).length
  | [], st => by simp
  | r :: rs, st => by
    have h := foldl_messages_sent ch n dr rs (processRecord ch n dr st r)
    simp only [List.foldl_cons]
    rw [h, processRecord_sess]
    simp only [List.filter_cons]
    cases hs : recSucceeds ch r <;> simp [hs] <;> omega

theorem foldl_messages_failed (ch : Channel) (n : Nat) (dr : Nat × Nat) :
    ∀ (recs : List (Nat × String × String)) (st : LoopState),
      (recs.foldl (processRecord ch n dr) st).sess.messages_failed =
        st.sess.messages_failed +
          (recs.filter (fun r => isValidRec r && search_contact (ch.search r.1)
            && (ch.send r.1 == SendOutcome.otherError))).length
  | [], st => by simp
  | r :: rs, st => by
    have h := foldl_messages_failed ch n dr rs (processRecord ch n dr st r)
    simp only [List.foldl_cons]
    rw [h, processRecord_sess]
    simp only [List.filter_cons]
    cases hq : (isValidRec r && search_contact (ch.search r.1)
        && (ch.send r.1 == SendOutcome.otherError)) <;>
      simp [hq] <;> omega

theorem searchedLabels_append (a b : List Event) :
    searchedLabels (a ++ b) = searchedLabels a ++ searchedLabels b := by
  simp [searchedLabels, List.filterMap_append]

theorem dispatchedLabels_append (a b : List Event) :
    dispatchedLabels (a ++ b) = dispatchedLabels a ++ dispatchedLabels b := by
  simp [dispatchedLabels, List.filterMap_append]

theorem foldl_searchedLabels (ch : Channel) (n : Nat) (dr : Nat × Nat) :
    ∀ (recs : List (Nat × String × String)) (st : LoopState),
      searchedLabels (recs.foldl (processRecord ch n dr) st).events =
        searchedLabels st.events ++ (recs.filter (isValidRec)).map (fun r => r.1)
  | [], st => by simp
  | r :: rs, st => by
    have h := foldl_searchedLabels ch n dr rs (processRecord ch n dr st r)
    obtain ⟨extra, he, hsl, _⟩ := processRecord_events ch n dr st r
    simp only [List.foldl_cons]
    rw [h, he, searchedLabels_append]
    by_cases hv : isValidRec r = true
    · simp only [hv, if_pos] at hsl
      simp [hsl, hv, List.filter_cons]
    · simp only [hv, if_neg] at hsl
      simp [hsl, hv, List.filter_cons]

theorem foldl_dispatchedLabels (ch : Channel) (n : Nat) (dr : Nat × Nat) :
    ∀ (recs : List (Nat × String × String)) (st : LoopState),
      dispatchedLabels (recs.foldl (processRecord ch n dr) st).events =
        dispatchedLabels st.events ++
          (recs.filter (fun r => isValidRec r && search_contact (ch.search r.1))).map
            (fun r => r.1)
  | [], st => by simp
  | r :: rs, st => by
    have h := foldl_dispatchedLabels ch n dr rs (processRecord ch n dr st r)
    obtain ⟨extra, he, _, hdl⟩ := processRecord_events ch n dr st r
    simp only [List.foldl_cons]
    rw [h, he, dispatchedLabels_append]
    by_cases hv : (isValidRec r && search_contact (ch.search r.1)) = true
    · simp only [hv, if_pos] at hdl
      simp [hdl, hv, List.filter_cons]
    · simp only [hv, if_neg] at hdl
      simp [hdl, hv, List.filter_cons]

theorem bulk_searchedLabels (ch : Channel) (sess0 : SessionStats)
    (raw : List (Option String × Option String)) (dr : Nat × Nat) :
    searchedLabels (send_bulk_messages ch sess0 raw dr false).events =
      ((cleanRows raw).filter (isValidRec)).map (fun r => r.1) := by
  simp only [send_bulk_messages]
  by_cases h0 : (cleanRows raw).length = 0
  · have he : cleanRows raw = [] := List.length_eq_zero.mp h0
    simp [he, initState, searchedLabels]
  · rw [if_neg h0]
    simp only [Bool.false_eq_true, if_false]
    rw [foldl_searchedLabels]
    simp [initState, searchedLabels]

theorem bulk_dispatchedLabels (ch : Channel) (sess0 : SessionStats)
    (raw : List (Option String × Option String)) (dr : Nat × Nat) :
    dispatchedLabels (send_bulk_messages ch sess0 raw dr false).events =
      ((cleanRows raw).filter
        (fun r => isValidRec r && search_contact (ch.search r.1))).map (fun r => r.1) := by
  simp only [send_bulk_messages]
  by_cases h0 : (cleanRows raw).length = 0
  · have he : cleanRows raw = [] := List.length_eq_zero.mp h0
    simp [he, initState, dispatchedLabels]
  · rw [if_neg h0]
    simp only [Bool.false_eq_true, if_false]
    rw [foldl_dispatchedLabels]
    simp [initState, dispatchedLabels]

theorem bulk_successful (ch : Channel) (sess0 : SessionStats)
    (raw : List (Option String × Option String)) (dr : Nat × Nat) :
    (send_bulk_messages ch sess0 raw dr false).results.successful =
      ((cleanRows raw).filter (recSucceeds ch)).length := by
  simp only [send_bulk_messages]
  by_cases h0 : (cleanRows raw).length = 0
  · have he : cleanRows raw = [] := List.length_eq_zero.mp h0
    simp [he, initState]
  · rw [if_neg h0]
    simp only [Bool.false_eq_true, if_false]
    rw [foldl_successful]
    simp [initState]

theorem bulk_failed_contacts (ch : Channel) (sess0 : SessionStats)
    (raw : List (Option String × Option String)) (dr : Nat × Nat) :
    (send_bulk_messages ch sess0 raw dr false).results.failed_contacts =
      ((cleanRows raw).filter (recFails ch)).map (fun r => strip r.2.1) := by
  simp only [send_bulk_messages]
  by_cases h0 : (cleanRows raw).length = 0
  · have he : cleanRows raw = [] := List.length_eq_zero.mp h0
    simp [he, initState]
  · rw [if_neg h0]
    simp only [Bool.false_eq_true, if_false]
    rw [foldl_failed_contacts]
    simp [initState]

/-- C1 (amended): for every channel, initial session statistics, raw dataset
and delay range, a non-dry run of `send_bulk_messages` that completes its
per-record loop returns results with `total = successful + failed + skipped`;
at the loop boundary after the first `k` records, the running sum
`successful + failed + skipped` equals `min k total`, so the equality with
`total` is reached exactly at completion of the loop, not at every
observation point after the row count is fixed. -/
theorem C1_sum_equals_total_at_completion (ch : Channel) (sess0 : SessionStats)
    (raw : List (Option String × Option String)) (dr : Nat × Nat) (k : Nat) :
    ((send_bulk_messages ch sess0 raw dr false).results.total =
      (send_bulk_messages ch sess0 raw dr false).results.successful
        + (send_bulk_messages ch sess0 raw dr false).results.failed
        + (send_bulk_messages ch sess0 raw dr false).results.skipped) ∧
    ((stateAfter ch sess0 raw dr k).results.successful
        + (stateAfter ch sess0 raw dr k).results.failed
        + (stateAfter ch sess0 raw dr k).results.skipped
      = min k (cleanRows raw).length) ∧
    (stateAfter ch sess0 raw dr k).results.total = (cleanRows raw).length := by
  refine ⟨?_, ?_, ?_⟩
  · simp only [send_bulk_messages]
    by_cases h0 : (cleanRows raw).length = 0
    · simp [h0, initState]
    · rw [if_neg h0]
      simp only [Bool.false_eq_true, if_false]
      rw [foldl_total, foldl_sum]
      simp [initState]
  · simp only [stateAfter]
    rw [foldl_sum]
    simp [initState]
  · simp only [stateAfter]
    rw [foldl_total]
    simp [initState]

/-- C1 (counterexample): in a one-record run (which subsequently completes),
at the observation point right after the dataset row count has been fixed and
before any record is processed, `total` is already 1 while
`successful + failed + skipped` is still 0, so the equality does not hold at
every observation point after the row count is fixed. -/
theorem C1_midrun_counterexample :
    (stateAfter chAllOk zeroSess rawOne (3, 8) 0).results.total = 1 ∧
    (stateAfter chAllOk zeroSess rawOne (3, 8) 0).results.successful
        + (stateAfter chAllOk zeroSess rawOne (3, 8) 0).results.failed
        + (stateAfter chAllOk zeroSess rawOne (3, 8) 0).results.skipped = 0 ∧
    ¬((stateAfter chAllOk zeroSess rawOne (3, 8) 0).results.total =
      (stateAfter chAllOk zeroSess rawOne (3, 8) 0).results.successful
        + (stateAfter chAllOk zeroSess rawOne (3, 8) 0).results.failed
        + (stateAfter chAllOk zeroSess rawOne (3, 8) 0).results.skipped) := by
  decide

/-- C2 (amended): the configured rate ceilings are declared but never
consulted — on every channel, dataset and delay range, every valid record of
the cleaned dataset is taken to contact search, dispatch follows whenever
resolution succeeds, and every successful dispatch is recorded, regardless of
how many sends occurred in any trailing window; no admission check, denial or
cooldown exists anywhere in the run. -/
theorem C2_no_admission_policy (ch : Channel) (sess0 : SessionStats)
    (raw : List (Option String × Option String)) (dr : Nat × Nat) :
    searchedLabels (send_bulk_messages ch sess0 raw dr false).events =
      ((cleanRows raw).filter (isValidRec)).map (fun r => r.1) ∧
    dispatchedLabels (send_bulk_messages ch sess0 raw dr false).events =
      ((cleanRows raw).filter
        (fun r => isValidRec r && search_contact (ch.search r.1))).map (fun r => r.1) ∧
    (send_bulk_messages ch sess0 raw dr false).results.successful =
      ((cleanRows raw).filter (recSucceeds ch)).length :=
  ⟨bulk_searchedLabels ch sess0 raw dr, bulk_dispatchedLabels ch sess0 raw dr,
    bulk_successful ch sess0 raw dr⟩

set_option maxRecDepth 40000 in
/-- C2 (counterexample): with 51 valid records, an all-success channel and
every `random.uniform(3, 8)` draw equal to 3, the modelled clock places all
51 invocations of `send_message` inside a single trailing one-hour window
(all stamps lie within 3600 seconds of the start), which exceeds
`max_messages_per_hour = 50`, and all 51 are dispatched and recorded as
successful — the 51st send proceeds although the hour window is already at
its ceiling, so no admission is ever denied. -/
theorem C2_ceiling_exceeded_counterexample :
    (dispatchTimes (send_bulk_messages chAllOk zeroSess rawFiftyOne
        (3, 8) false).events).length = Config.max_messages_per_hour + 1 ∧
    ((dispatchTimes (send_bulk_messages chAllOk zeroSess rawFiftyOne
        (3, 8) false).events).all (fun t => t ≤ 3600)) = true ∧
    (send_bulk_messages chAllOk zeroSess rawFiftyOne (3, 8) false).results.successful
      = 51 := by
  decide


/-- C3 (counterexample): for the scenario dataset
`[(A, hi), ("", hi), (B, "")]` the run does give skipped = 2 and processes
exactly the record (A, hi), but `total` — fixed at line 626 after `dropna`,
which keeps the two empty-string rows because they are not NaN — is 3,
not 1 as the claim states. -/
theorem C3_total_counterexample :
    (send_bulk_messages chAllOk zeroSess rawScenario (3, 8) false).results.skipped = 2 ∧
    dispatchedPairs (send_bulk_messages chAllOk zeroSess rawScenario
      (3, 8) false).events = [("A", "hi")] ∧
    (send_bulk_messages chAllOk zeroSess rawScenario (3, 8) false).results.total = 3 ∧
    ¬((send_bulk_messages chAllOk zeroSess rawScenario (3, 8) false).results.total = 1) := by
  decide

/-- C3 (amended): for the scenario dataset the validated/processed set is
exactly the record (A, hi) — the only record searched and dispatched — with
skipped = 2, successful = 1, failed = 0 and total = 3 (the empty-string rows
survive `dropna` and are counted in the row total, then skipped inside the
loop). -/
theorem C3_scenario_accounting :
    (send_bulk_messages chAllOk zeroSess rawScenario (3, 8) false).results.total = 3 ∧
    (send_bulk_messages chAllOk zeroSess rawScenario (3, 8) false).results.skipped = 2 ∧
    (send_bulk_messages chAllOk zeroSess rawScenario (3, 8) false).results.successful = 1 ∧
    (send_bulk_messages chAllOk zeroSess rawScenario (3, 8) false).results.failed = 0 ∧
    searchedLabels (send_bulk_messages chAllOk zeroSess rawScenario
      (3, 8) false).events = [0] ∧
    dispatchedPairs (send_bulk_messages chAllOk zeroSess rawScenario
      (3, 8) false).events = [("A", "hi")] := by
  decide

/-- C4: for every record of the cleaned dataset that passes the validity
check but whose contact resolution fails, `send_message` is never invoked for
that record's label, the record's contact is classified failed (it appears in
`failed_contacts`), and processing continues — every valid record of the run
is still searched. -/
theorem C4_no_dispatch_without_resolution (ch : Channel) (sess0 : SessionStats)
    (raw : List (Option String × Option String)) (dr : Nat × Nat)
    (l : Nat) (c m : String)
    (hmem : (l, c, m) ∈ cleanRows raw) (hvalid : isValidRec (l, c, m) = true)
    (hfail : search_contact (ch.search l) = false) :
    (∀ t c2 m2, Event.dispatched t l c2 m2 ∉
      (send_bulk_messages ch sess0 raw dr false).events) ∧
    strip c ∈ (send_bulk_messages ch sess0 raw dr false).results.failed_contacts ∧
    searchedLabels (send_bulk_messages ch sess0 raw dr false).events =
      ((cleanRows raw).filter (isValidRec)).map (fun r => r.1) := by
  refine ⟨?_, ?_, bulk_searchedLabels ch sess0 raw dr⟩
  · intro t c2 m2 hin
    have hlab : l ∈ dispatchedLabels (send_bulk_messages ch sess0 raw dr false).events := by
      simp only [dispatchedLabels, List.mem_filterMap]
      exact ⟨Event.dispatched t l c2 m2, hin, rfl⟩
    rw [bulk_dispatchedLabels] at hlab
    simp only [List.mem_map, List.mem_filter] at hlab
    obtain ⟨r, ⟨_, hr⟩, hrl⟩ := hlab
    rw [hrl] at hr
    simp [hfail] at hr
  · rw [bulk_failed_contacts]
    refine List.mem_map.mpr ⟨(l, c, m), List.mem_filter.mpr ⟨hmem, ?_⟩, rfl⟩
    simp [recFails, hvalid, hfail]

/-- C4 (witness): on a one-record dataset with contact `Z` and a channel that
resolves nothing, the dispatch event for that record never occurs. -/
theorem C4_no_dispatch_without_resolution_witness :
    ((0, "Z", "m") ∈ cleanRows rawZ ∧ isValidRec (0, "Z", "m") = true ∧
      search_contact (chNotFound.search 0) = false) ∧
    (∀ t c2 m2, Event.dispatched t 0 c2 m2 ∉
      (send_bulk_messages chNotFound zeroSess rawZ (3, 8) false).events) :=
  ⟨⟨by decide, by decide, by decide⟩,
    (C4_no_dispatch_without_resolution chNotFound zeroSess rawZ (3, 8) 0 "Z" "m"
      (by decide) (by decide) (by decide)).1⟩

/-- C5: `search_contact` tries exactly two strategies in order with first
success winning: when an exact case-sensitive title match appears it succeeds
immediately and the best-effort path is never attempted; when no exact match
appears the best-effort path is attempted, and resolution succeeds on it
exactly when a first result could be selected and the conversation compose
surface verification then succeeded — otherwise resolution reports failure. -/
theorem C5_two_strategy_fallback (env : SearchEnv) :
    (env.exactMatch = true →
      search_contact env = true ∧
      SearchStep.bestEffortAttempt ∉ search_steps env) ∧
    (env.exactMatch = false →
      SearchStep.bestEffortAttempt ∈ search_steps env ∧
      (search_contact env = true ↔
        env.firstResult = true ∧ env.chatOpened = true)) := by
  obtain ⟨e, f, o⟩ := env
  cases e <;> cases f <;> cases o <;>
    simp [search_contact, search_steps]

/-- C5 (witness): on the channel outcome with no exact match but a first
result whose verification succeeds, the best-effort path is attempted and
resolution succeeds. -/
theorem C5_two_strategy_fallback_witness :
    ((⟨false, true, true⟩ : SearchEnv).exactMatch = false) ∧
    (SearchStep.bestEffortAttempt ∈ search_steps ⟨false, true, true⟩ ∧
      (search_contact ⟨false, true, true⟩ = true ↔
        (⟨false, true, true⟩ : SearchEnv).firstResult = true ∧
          (⟨false, true, true⟩ : SearchEnv).chatOpened = true)) :=
  ⟨rfl, (C5_two_strategy_fallback ⟨false, true, true⟩).2 rfl⟩

/-- C6 (amended): a dry run performs validation and preview only — it emits
no contact-search or dispatch event, leaves the session counters untouched
and `successful`, `failed` and `skipped` at zero — but `total` in the
returned results is set to the cleaned row count (line 626 runs before the
dry-run early return of line 634), not left at zero. -/
theorem C6_dry_run_no_dispatch (ch : Channel) (sess0 : SessionStats)
    (raw : List (Option String × Option String)) (dr : Nat × Nat) :
    (send_bulk_messages ch sess0 raw dr true).events = [] ∧
    (send_bulk_messages ch sess0 raw dr true).sess = sess0 ∧
    (send_bulk_messages ch sess0 raw dr true).results.successful = 0 ∧
    (send_bulk_messages ch sess0 raw dr true).results.failed = 0 ∧
    (send_bulk_messages ch sess0 raw dr true).results.skipped = 0 ∧
    (send_bulk_messages ch sess0 raw dr true).results.total =
      (cleanRows raw).length := by
  simp only [send_bulk_messages]
  by_cases h0 : (cleanRows raw).length = 0 <;> simp [h0, initState]

/-- C6 (counterexample): a dry run over one valid record returns results with
`total = 1`, not zero — the returned totals are not all left at zero. -/
theorem C6_dry_run_total_counterexample :
    (send_bulk_messages chAllOk zeroSess rawOne (3, 8) true).results.total = 1 ∧
    ¬((send_bulk_messages chAllOk zeroSess rawOne (3, 8) true).results.total = 0) := by
  decide

/-- C7 (code evaluated at the failing input): on the dataset whose first row
is dropped by `dropna` (missing contact) followed by two valid rows, the
surviving pandas labels are 1 and 2 while `len(df)` is 2, so the line-694
check `index < len(df) - 1` is false already for the first processed record:
both records are resolved and dispatched, yet no inter-record delay event
occurs between them — the delay is omitted after a record that is not the
final one, against the claim and the comment at line 693. -/
theorem C7_delay_omitted_between_processed_records :
    (send_bulk_messages chAllOk zeroSess rawDropFirst (3, 8) false).results.successful
      = 2 ∧
    dispatchedLabels (send_bulk_messages chAllOk zeroSess rawDropFirst
      (3, 8) false).events = [1, 2] ∧
    delayCount (send_bulk_messages chAllOk zeroSess rawDropFirst
      (3, 8) false).events = 0 := by
  decide

/-- C8 (counterexample): for the filename `contacts.txt` the bulk path raises
the unsupported-format error, but the standalone validation path performs no
extension check at all — it dispatches every filename not ending in `.csv`
to `read_excel`, so it never fails with an unsupported-format error. -/
theorem C8_validation_path_counterexample :
    bulkReadAction "contacts.txt" = ReadAction.unsupported ".txt" ∧
    validateReadAction "contacts.txt" = ReadAction.readExcel := by
  decide

/-- C8 (amended): in the bulk-send path an unrecognized extension raises the
unsupported-format error before any delivery is attempted (the returned run
contains no event and reports the offending extension); the standalone
validation path, however, performs no extension check — it never produces an
unsupported-format outcome, treating every filename not ending in `.csv` as
Excel. -/
theorem C8_unsupported_format_bulk_only (ch : Channel) (sess0 : SessionStats)
    (path : String) (parsed : List (Option String × Option String))
    (dr : Nat × Nat) (dry : Bool) (ext : String)
    (h : bulkReadAction path = ReadAction.unsupported ext) :
    (send_bulk_from_file ch sess0 path parsed dr dry).1 = some ext ∧
    (send_bulk_from_file ch sess0 path parsed dr dry).2.events = [] ∧
    (∀ p e, validateReadAction p ≠ ReadAction.unsupported e) := by
  refine ⟨?_, ?_, ?_⟩
  · simp [send_bulk_from_file, h]
  · simp [send_bulk_from_file, h, initState]
  · intro p e
    simp only [validateReadAction]
    split <;> simp

/-- C8 (witness): the bulk path on `contacts.txt` reports the unsupported
extension `.txt` and performs no delivery. -/
theorem C8_unsupported_format_bulk_only_witness :
    (bulkReadAction "contacts.txt" = ReadAction.unsupported ".txt") ∧
    ((send_bulk_from_file chAllOk zeroSess "contacts.txt" rawOne
        (3, 8) false).1 = some ".txt" ∧
      (send_bulk_from_file chAllOk zeroSess "contacts.txt" rawOne
        (3, 8) false).2.events = [] ∧
      (∀ p e, validateReadAction p ≠ ReadAction.unsupported e)) :=
  ⟨by decide,
    C8_unsupported_format_bulk_only chAllOk zeroSess "contacts.txt" rawOne
      (3, 8) false ".txt" (by decide)⟩

/-- C9: `messages_failed` is incremented by `send_message` exactly on the
generic-exception path; the `TimeoutException` and
`ElementClickInterceptedException` paths return `False` with the session
statistics untouched; consequently, in a bulk run where a record's dispatch
fails by timeout, `messages_sent + messages_failed` as reported by
`get_session_statistics` is strictly below `contacts_processed`. -/
theorem C9_session_failed_undercount :
    (∀ st : SessionStats, send_message st SendOutcome.intercepted = (false, st)) ∧
    (∀ st : SessionStats, send_message st SendOutcome.timedOut = (false, st)) ∧
    (∀ (st : SessionStats) (o : SendOutcome),
      (send_message st o).2.messages_failed =
        st.messages_failed + (if o = SendOutcome.otherError then 1 else 0)) ∧
    ((get_session_statistics (send_bulk_messages chTimedOut zeroSess rawOne
          (3, 8) false).sess).1
        + (get_session_statistics (send_bulk_messages chTimedOut zeroSess rawOne
          (3, 8) false).sess).2.1
      < (get_session_statistics (send_bulk_messages chTimedOut zeroSess rawOne
          (3, 8) false).sess).2.2) :=
  ⟨fun _ => rfl, fun _ => rfl, send_message_failed_count, by decide⟩

/-- C10: `generate_personalized_message` is total on missing placeholders —
whenever `template.format(**kwargs)` would raise `KeyError` on a key, the
function returns the string `Error: Missing template variable` followed by
the quoted missing key, instead of propagating the exception. -/
theorem C10_missing_placeholder_total (template : String)
    (kwargs : List (String × String)) (k : String)
    (h : strFormat template kwargs = Except.error (FmtError.missingKey k)) :
    generate_personalized_message template kwargs =
      Except.ok ("Error: Missing template variable " ++ "\x27" ++ k ++ "\x27") := by
  simp [generate_personalized_message, h]

/-- C10 (witness): formatting `Hello \x7bname\x7d!` with no arguments raises
`KeyError` on `name`, and `generate_personalized_message` returns the error
string naming it. -/
theorem C10_missing_placeholder_total_witness :
    (strFormat "Hello \x7bname\x7d!" [] =
      Except.error (FmtError.missingKey "name")) ∧
    generate_personalized_message "Hello \x7bname\x7d!" [] =
      Except.ok ("Error: Missing template variable " ++ "\x27" ++ "name" ++ "\x27") :=
  ⟨by rfl, C10_missing_placeholder_total "Hello \x7bname\x7d!" [] "name" (by rfl)⟩
